import Mathlib

set_option maxRecDepth 8192

/-!
Shallow embedding of `framebuffer.go` (package `framebuffer`, an image/draw
compatible interface to the Linux framebuffer).

Bytes are modelled as `Nat` values below 256; Go `uint8(v)` narrowing is
`v % 256`.  The buffer `[]byte` is a `List Nat`.  The `*os.File` device
handle is modelled as an explicit `Device` state with a write log and
injectable seek/write faults, since the claims quantify over device
failures.  Errors are opaque in Go; they are modelled as `Nat` codes.

Two functions of the source do not compile as written (Go rejects the
file): `WritePixel` (lines 72-76) indexes the buffer with `pixelStart`, a
name not defined in its scope, and `Set` (lines 66-70) declares
`pixelStart` without using it and calls `fb.WritePixel` with three
arguments where its signature takes five.  Their definitions below follow
the evident intent, recorded in each doc comment: `pixelStart` is
`fb.getPixelStart(x, y)` (as in `At` and `Set`), and `Set` forwards its
own `x`, `y` together with the narrowed channels.
-/

namespace Framebuffer

/-- framebuffer.go:25 — byte offset of the red channel inside a pixel. -/
def red : Nat := 2

/-- framebuffer.go:26 — byte offset of the green channel inside a pixel. -/
def green : Nat := 1

/-- framebuffer.go:27 — byte offset of the blue channel inside a pixel. -/
def blue : Nat := 0

/-- framebuffer.go:28 — the fourth byte slot (`x` in the source): "not sure
what this does, but there's a slot for it". -/
def xSlot : Nat := 3

/-- framebuffer.go:30 — bytes per pixel. -/
def colorBytes : Nat := 4

/-- A generic Go `color.Color`, characterised by the quadruple its `RGBA()`
method returns (`uint32` values, modelled as `Nat`). -/
structure ColorVal where
  R : Nat
  G : Nat
  B : Nat
  A : Nat
deriving DecidableEq

/-- Go's concrete `color.RGBA` struct: four 8-bit channels. -/
structure RGBA where
  R : Nat
  G : Nat
  B : Nat
  A : Nat
deriving DecidableEq

/-- The `RGBA()` method of `color.RGBA` (Go standard library): each channel
`c` is widened to `uint32` as `c | c << 8`. -/
def RGBA.rgba (c : RGBA) : ColorVal :=
  { R := c.R ||| (c.R <<< 8)
    G := c.G ||| (c.G <<< 8)
    B := c.B ||| (c.B <<< 8)
    A := c.A ||| (c.A <<< 8) }

/-- framebuffer.go:35-39 — the surface state (`buf []byte; h, w int`).
The `file *os.File` handle is modelled separately as a `Device`. -/
structure FrameBuffer where
  buf : List Nat
  h : Nat
  w : Nat
deriving DecidableEq

/-- framebuffer.go:52-54. -/
def FrameBuffer.getPixelStart (fb : FrameBuffer) (x y : Nat) : Nat :=
  (y * fb.w + x) * colorBytes

/-- framebuffer.go:56-64 — `At` builds a `color.RGBA` from the bytes at
offsets `pixelStart + red/green/blue`, with `A: 0`. -/
def FrameBuffer.At (fb : FrameBuffer) (x y : Nat) : RGBA :=
  let pixelStart := fb.getPixelStart x y
  { R := fb.buf.getD (pixelStart + red) 0
    G := fb.buf.getD (pixelStart + green) 0
    B := fb.buf.getD (pixelStart + blue) 0
    A := 0 }

/-- framebuffer.go:72-76.  The source body indexes `fb.buf` with
`pixelStart`, a name undefined in that function, so the Go file does not
compile; every other accessor obtains it as `fb.getPixelStart(x, y)`, and
that evident intent is used here.  The three assignments keep the source
order: red, then green, then blue. -/
def FrameBuffer.WritePixel (fb : FrameBuffer) (x y : Nat) (r g b : Nat) : FrameBuffer :=
  let pixelStart := fb.getPixelStart x y
  { fb with
      buf := ((fb.buf.set (pixelStart + red) r).set
                (pixelStart + green) g).set
                (pixelStart + blue) b }

/-- framebuffer.go:66-70.  The source extracts `r, g, b, _ := c.RGBA()` and
calls `fb.WritePixel(uint8(r), uint8(g), uint8(b))` — three arguments for a
five-argument method, another compile error; the evident intent, used here,
forwards `x`, `y` with the narrowed channels. -/
def FrameBuffer.Set (fb : FrameBuffer) (x y : Nat) (c : ColorVal) : FrameBuffer :=
  fb.WritePixel x y (c.R % 256) (c.G % 256) (c.B % 256)

/-- The device handle behind the surface's `*os.File`: current write
offset, a log of completed writes `(offset, bytes)`, a closed flag, and
injectable faults for `Seek`, `Write` and `Close` (error codes, opaque in
Go). -/
structure Device where
  pos : Nat
  writes : List (Nat × List Nat)
  closed : Bool
  failSeek : Option Nat
  failWrite : Option Nat
  failClose : Option Nat
deriving DecidableEq

/-- Model of `file.Seek(0, 0)`: on failure the offset is left unchanged and
the error is returned; on success the offset becomes 0. -/
def Device.seekToStart (d : Device) : Device × Option Nat :=
  match d.failSeek with
  | some e => (d, some e)
  | none => ({ d with pos := 0 }, none)

/-- Model of `file.Write(data)`: on failure the device is unchanged and the
error is returned; on success `(pos, data)` is appended to the write log
and the offset advances past the written bytes. -/
def Device.write (d : Device) (data : List Nat) : Device × Option Nat :=
  match d.failWrite with
  | some e => (d, some e)
  | none =>
      ({ d with
          pos := d.pos + data.length
          writes := d.writes ++ [(d.pos, data)] }, none)

/-- Model of `file.Close()`. -/
def Device.closeFile (d : Device) : Device × Option Nat :=
  ({ d with closed := true }, d.failClose)

/-- framebuffer.go:80-84 — `Flush` seeks to 0 discarding both results of
`Seek`, writes the whole buffer, and returns the write's error.  Returns
the (unchanged) surface, the new device state and the reported error. -/
def FrameBuffer.Flush (fb : FrameBuffer) (d : Device) : FrameBuffer × Device × Option Nat :=
  let d1 := (d.seekToStart).1
  let wr := d1.write fb.buf
  (fb, wr.1, wr.2)

/-- framebuffer.go:87-89 — `Close` returns `fb.file.Close()`. -/
def FrameBuffer.Close (fb : FrameBuffer) (d : Device) : FrameBuffer × Device × Option Nat :=
  let c := d.closeFile
  (fb, c.1, c.2)

/-- The `fb_fix_screeninfo` part of `fb_info_t` used by `Open`. -/
structure FbFixInfo where
  smem_len : Nat
deriving DecidableEq

/-- The `fb_var_screeninfo` part of `fb_info_t` used by `Open`. -/
structure FbVarInfo where
  xres : Nat
  yres : Nat
deriving DecidableEq

/-- The `fb_info_t` record filled in by the native `initfb` collaborator. -/
structure FbInfo where
  fix_info : FbFixInfo
  var_info : FbVarInfo
  fd : Nat
deriving DecidableEq

/-- framebuffer.go:20-22 — the single initialization error.  Modelled as an
opaque one-value error type. -/
inductive OpenError where
  | initFailure
deriving DecidableEq

/-- framebuffer.go:21 — `InitErr`. -/
def InitErr : OpenError := OpenError.initFailure

/-- framebuffer.go:92-114 — `Open`, with the native `initfb` call's outputs
(its C return status `cErr` and the filled `fb_info_t`) taken as inputs.
On non-zero status it returns `InitErr` and nothing else; on success it
returns a surface with a zero-filled buffer of `smem_len` bytes,
`w = xres`, `h = yres`. -/
def Open (cErr : Int) (info : FbInfo) : Except OpenError FrameBuffer :=
  if cErr ≠ 0 then Except.error InitErr
  else Except.ok
    { buf := List.replicate info.fix_info.smem_len 0
      w := info.var_info.xres
      h := info.var_info.yres }

/-- One public operation on an open surface, for stating lifecycle
invariants over arbitrary operation sequences. -/
inductive FbOp where
  | setOp (x y : Nat) (c : ColorVal)
  | writePixelOp (x y r g b : Nat)
  | atOp (x y : Nat)
  | flushOp
  | closeOp
deriving DecidableEq

/-- Apply one operation to the (surface, device) state, discarding read
results and reported errors. -/
def applyOp (s : FrameBuffer × Device) (op : FbOp) : FrameBuffer × Device :=
  match op with
  | FbOp.setOp x y c => (s.1.Set x y c, s.2)
  | FbOp.writePixelOp x y r g b => (s.1.WritePixel x y r g b, s.2)
  | FbOp.atOp _ _ => s
  | FbOp.flushOp =>
      let r := s.1.Flush s.2
      (r.1, r.2.1)
  | FbOp.closeOp =>
      let r := s.1.Close s.2
      (r.1, r.2.1)

/-- Run a sequence of operations from an initial (surface, device) state. -/
def runOps (s : FrameBuffer × Device) (ops : List FbOp) : FrameBuffer × Device :=
  ops.foldl applyOp s

/-! ### Helper lemmas -/

lemma getD_set_ne (l : List Nat) (i j a : Nat) (h : i ≠ j) :
    (l.set i a).getD j 0 = l.getD j 0 := by
  simp [List.getD_eq_getElem?_getD, List.getElem?_set_ne h]

lemma getD_set_self (l : List Nat) (i a : Nat) (h : i < l.length) :
    (l.set i a).getD i 0 = a := by
  simp [List.getD_eq_getElem?_getD, List.getElem?_set_self, h]

lemma getD_replicate_zero (n i : Nat) : (List.replicate n (0 : Nat)).getD i 0 = 0 := by
  rcases Nat.lt_or_ge i n with h | h
  · simp [List.getD_eq_getElem?_getD, List.getElem?_replicate, h]
  · have hle : (List.replicate n (0 : Nat)).length ≤ i := by simp [h]
    simp [List.getD_eq_getElem?_getD, List.getElem?_eq_none_iff.mpr hle]

/-- In-bounds coordinates address bytes inside a `w*h*4` buffer. -/
lemma pixel_index_lt (w h x y k : Nat) (hx : x < w) (hy : y < h) (hk : k < 4) :
    (y * w + x) * 4 + k < w * h * 4 := by
  have h1 : y * w + x < w * h := by
    calc y * w + x < y * w + w := by omega
    _ = (y + 1) * w := by ring
    _ ≤ h * w := Nat.mul_le_mul_right w hy
    _ = w * h := Nat.mul_comm h w
  omega

/-- Narrowing Go's widened channel `c | c << 8` back to `uint8` recovers the
8-bit channel. -/
lemma widen_mod : ∀ n < 256, (n ||| (n <<< 8)) % 256 = n := by decide

/-- Reading a triple update `set (p+2) r, set (p+1) g, set p b` (the shape of
a pixel write): the three updated positions hold the new bytes and every other
position is unchanged. -/
lemma getD_set3 (l : List Nat) (p r g b : Nat) (hp : p + 2 < l.length) :
    (((l.set (p + 2) r).set (p + 1) g).set p b).getD p 0 = b ∧
    (((l.set (p + 2) r).set (p + 1) g).set p b).getD (p + 1) 0 = g ∧
    (((l.set (p + 2) r).set (p + 1) g).set p b).getD (p + 2) 0 = r ∧
    ∀ j, j ≠ p → j ≠ p + 1 → j ≠ p + 2 →
      (((l.set (p + 2) r).set (p + 1) g).set p b).getD j 0 = l.getD j 0 := by
  refine ⟨?_, ?_, ?_, ?_⟩
  · exact getD_set_self _ _ _ (by simp only [List.length_set]; omega)
  · calc (((l.set (p + 2) r).set (p + 1) g).set p b).getD (p + 1) 0
        = ((l.set (p + 2) r).set (p + 1) g).getD (p + 1) 0 :=
          getD_set_ne _ _ _ _ (by omega)
    _ = g := getD_set_self _ _ _ (by simp only [List.length_set]; omega)
  · calc (((l.set (p + 2) r).set (p + 1) g).set p b).getD (p + 2) 0
        = ((l.set (p + 2) r).set (p + 1) g).getD (p + 2) 0 :=
          getD_set_ne _ _ _ _ (by omega)
    _ = (l.set (p + 2) r).getD (p + 2) 0 := getD_set_ne _ _ _ _ (by omega)
    _ = r := getD_set_self _ _ _ hp
  · intro j h0 h1 h2
    rw [getD_set_ne _ _ _ _ (Ne.symm h0), getD_set_ne _ _ _ _ (Ne.symm h1),
      getD_set_ne _ _ _ _ (Ne.symm h2)]

/-- `WritePixel` keeps the width. -/
lemma WritePixel_w (fb : FrameBuffer) (x y r g b : Nat) :
    (fb.WritePixel x y r g b).w = fb.w := rfl

/-- The three bytes a `WritePixel` stores, at the claimed offsets. -/
lemma WritePixel_getD (fb : FrameBuffer) (x y r g b : Nat)
    (hx : x < fb.w) (hy : y < fb.h) (hlen : fb.buf.length = fb.w * fb.h * 4) :
    (fb.WritePixel x y r g b).buf.getD ((y * fb.w + x) * 4) 0 = b ∧
    (fb.WritePixel x y r g b).buf.getD ((y * fb.w + x) * 4 + 1) 0 = g ∧
    (fb.WritePixel x y r g b).buf.getD ((y * fb.w + x) * 4 + 2) 0 = r := by
  have hp : (y * fb.w + x) * 4 + 2 < fb.buf.length := by
    have h := pixel_index_lt fb.w fb.h x y 2 hx hy (by omega)
    omega
  obtain ⟨h0, h1, h2, -⟩ := getD_set3 fb.buf ((y * fb.w + x) * 4) r g b hp
  exact ⟨h0, h1, h2⟩

/-! ### Claim theorems -/

/-- C9: for every in-bounds (x, y), `At` (GetPixel) returns the color whose
blue, green, red components are the buffer bytes at offsets
`(y*width + x)*4 + 0, + 1, + 2`, ignores the fourth byte (overwriting it
does not change the result), and always reports alpha 0, whatever the
buffer contents. -/
theorem At_reads_bgr_zero_alpha (fb : FrameBuffer) (x y v : Nat)
    (hx : x < fb.w) (hy : y < fb.h) (hlen : fb.buf.length = fb.w * fb.h * 4) :
    (fb.At x y).B = fb.buf.getD ((y * fb.w + x) * 4) 0 ∧
    (fb.At x y).G = fb.buf.getD ((y * fb.w + x) * 4 + 1) 0 ∧
    (fb.At x y).R = fb.buf.getD ((y * fb.w + x) * 4 + 2) 0 ∧
    (fb.At x y).A = 0 ∧
    FrameBuffer.At { fb with buf := fb.buf.set ((y * fb.w + x) * 4 + 3) v } x y
      = fb.At x y := by
  refine ⟨rfl, rfl, rfl, rfl, ?_⟩
  simp only [FrameBuffer.At, FrameBuffer.getPixelStart, red, green, blue,
    colorBytes, RGBA.mk.injEq, Nat.add_zero]
  refine ⟨?_, ?_, ?_, trivial⟩ <;> exact getD_set_ne _ _ _ _ (by omega)

/-- C9 witness: on a 2-wide, 1-high surface with bytes 0..7, (1,0) reads
B=4, G=5, R=6, A=0, and overwriting the fourth byte slot (index 7) leaves
the result unchanged. -/
theorem At_reads_bgr_zero_alpha_witness :
    ((FrameBuffer.mk [0, 1, 2, 3, 4, 5, 6, 7] 1 2).At 1 0).B = 4 ∧
    ((FrameBuffer.mk [0, 1, 2, 3, 4, 5, 6, 7] 1 2).At 1 0).G = 5 ∧
    ((FrameBuffer.mk [0, 1, 2, 3, 4, 5, 6, 7] 1 2).At 1 0).R = 6 ∧
    ((FrameBuffer.mk [0, 1, 2, 3, 4, 5, 6, 7] 1 2).At 1 0).A = 0 ∧
    FrameBuffer.At (FrameBuffer.mk [0, 1, 2, 3, 4, 5, 6, 9] 1 2) 1 0
      = (FrameBuffer.mk [0, 1, 2, 3, 4, 5, 6, 7] 1 2).At 1 0 :=
  At_reads_bgr_zero_alpha (FrameBuffer.mk [0, 1, 2, 3, 4, 5, 6, 7] 1 2) 1 0 9
    (by decide) (by decide) (by decide)

/-- C1 (on the intended code; the source's `Set`/`WritePixel` do not compile
as written, see their doc comments): for every in-bounds (x, y) and 8-bit
(r, g, b), `Set` with `color.RGBA{r, g, b, a}` followed by `At` returns the
color (r, g, b) with alpha 0, with no Flush involved. -/
theorem Set_At_roundtrip (fb : FrameBuffer) (x y : Nat) (c : RGBA)
    (hx : x < fb.w) (hy : y < fb.h) (hlen : fb.buf.length = fb.w * fb.h * 4)
    (hr : c.R < 256) (hg : c.G < 256) (hb : c.B < 256) :
    (fb.Set x y c.rgba).At x y = RGBA.mk c.R c.G c.B 0 := by
  obtain ⟨hB, hG, hR⟩ := WritePixel_getD fb x y ((c.R ||| (c.R <<< 8)) % 256)
    ((c.G ||| (c.G <<< 8)) % 256) ((c.B ||| (c.B <<< 8)) % 256) hx hy hlen
  simp only [FrameBuffer.Set, FrameBuffer.At, FrameBuffer.getPixelStart,
    WritePixel_w, red, green, blue, colorBytes, RGBA.rgba, RGBA.mk.injEq,
    Nat.add_zero]
  refine ⟨?_, ?_, ?_, trivial⟩
  · rw [hR]; exact widen_mod c.R hr
  · rw [hG]; exact widen_mod c.G hg
  · rw [hB]; exact widen_mod c.B hb

/-- C1 witness: on a zeroed 2×2 surface, Set(1, 0, RGBA(10, 20, 30, 255))
then At(1, 0) yields (10, 20, 30, 0). -/
theorem Set_At_roundtrip_witness :
    ((FrameBuffer.mk (List.replicate 16 0) 2 2).Set 1 0
        (RGBA.rgba (RGBA.mk 10 20 30 255))).At 1 0 = RGBA.mk 10 20 30 0 :=
  Set_At_roundtrip (FrameBuffer.mk (List.replicate 16 0) 2 2) 1 0
    (RGBA.mk 10 20 30 255) (by decide) (by decide) (by decide)
    (by decide) (by decide) (by decide)

/-- C2 (on the intended code; see the `Set`/`WritePixel` doc comments): for
every in-bounds (x, y) and color value, `Set` narrows the color's R, G, B
intensities to 8 bits (alpha ignored) and stores them at offset
`(y*width + x)*4` in blue, green, red byte order; `WritePixel` stores its
channels at the same offset in the same order. -/
theorem Set_WritePixel_store_bgr (fb : FrameBuffer) (x y : Nat) (c : ColorVal)
    (r g b : Nat) (hx : x < fb.w) (hy : y < fb.h)
    (hlen : fb.buf.length = fb.w * fb.h * 4)
    (hr : r < 256) (hg : g < 256) (hb : b < 256) :
    (fb.Set x y c).buf.getD ((y * fb.w + x) * 4) 0 = c.B % 256 ∧
    (fb.Set x y c).buf.getD ((y * fb.w + x) * 4 + 1) 0 = c.G % 256 ∧
    (fb.Set x y c).buf.getD ((y * fb.w + x) * 4 + 2) 0 = c.R % 256 ∧
    (fb.WritePixel x y r g b).buf.getD ((y * fb.w + x) * 4) 0 = b ∧
    (fb.WritePixel x y r g b).buf.getD ((y * fb.w + x) * 4 + 1) 0 = g ∧
    (fb.WritePixel x y r g b).buf.getD ((y * fb.w + x) * 4 + 2) 0 = r ∧
    fb.Set x y (ColorVal.mk c.R c.G c.B 0) = fb.Set x y c := by
  obtain ⟨hsB, hsG, hsR⟩ :=
    WritePixel_getD fb x y (c.R % 256) (c.G % 256) (c.B % 256) hx hy hlen
  obtain ⟨hwB, hwG, hwR⟩ := WritePixel_getD fb x y r g b hx hy hlen
  exact ⟨hsB, hsG, hsR, hwB, hwG, hwR, rfl⟩

/-- C2 witness: on a zeroed 2×2 surface at (1, 0), Set with the wide color
(300, 513, 77, 9) stores 77, 1, 44 at offsets 4, 5, 6 and ignores alpha;
WritePixel(1, 0, 1, 2, 3) stores 3, 2, 1 there. -/
theorem Set_WritePixel_store_bgr_witness :
    ((FrameBuffer.mk (List.replicate 16 0) 2 2).Set 1 0
        (ColorVal.mk 300 513 77 9)).buf.getD 4 0 = 77 ∧
    ((FrameBuffer.mk (List.replicate 16 0) 2 2).Set 1 0
        (ColorVal.mk 300 513 77 9)).buf.getD 5 0 = 1 ∧
    ((FrameBuffer.mk (List.replicate 16 0) 2 2).Set 1 0
        (ColorVal.mk 300 513 77 9)).buf.getD 6 0 = 44 ∧
    ((FrameBuffer.mk (List.replicate 16 0) 2 2).WritePixel 1 0 1 2 3).buf.getD 4 0 = 3 ∧
    ((FrameBuffer.mk (List.replicate 16 0) 2 2).WritePixel 1 0 1 2 3).buf.getD 5 0 = 2 ∧
    ((FrameBuffer.mk (List.replicate 16 0) 2 2).WritePixel 1 0 1 2 3).buf.getD 6 0 = 1 ∧
    (FrameBuffer.mk (List.replicate 16 0) 2 2).Set 1 0 (ColorVal.mk 300 513 77 0)
      = (FrameBuffer.mk (List.replicate 16 0) 2 2).Set 1 0 (ColorVal.mk 300 513 77 9) :=
  Set_WritePixel_store_bgr (FrameBuffer.mk (List.replicate 16 0) 2 2) 1 0
    (ColorVal.mk 300 513 77 9) 1 2 3 (by decide) (by decide) (by decide)
    (by decide) (by decide) (by decide)

/-- C3 (on the intended code; see the `Set`/`WritePixel` doc comments): a
pixel write at in-bounds (x, y), by `Set` or `WritePixel`, changes no byte
at any position other than `(y*width + x)*4 + 0, + 1, + 2` — in particular
the pixel's fourth byte slot and all bytes of other coordinates are
unchanged — and the buffer length is preserved. -/
theorem write_touches_only_own_bytes (fb : FrameBuffer) (x y : Nat)
    (c : ColorVal) (r g b j : Nat) (hx : x < fb.w) (hy : y < fb.h)
    (hlen : fb.buf.length = fb.w * fb.h * 4)
    (hj0 : j ≠ (y * fb.w + x) * 4) (hj1 : j ≠ (y * fb.w + x) * 4 + 1)
    (hj2 : j ≠ (y * fb.w + x) * 4 + 2) :
    (fb.WritePixel x y r g b).buf.getD j 0 = fb.buf.getD j 0 ∧
    (fb.Set x y c).buf.getD j 0 = fb.buf.getD j 0 ∧
    (fb.WritePixel x y r g b).buf.length = fb.buf.length ∧
    (fb.Set x y c).buf.length = fb.buf.length := by
  have hp : (y * fb.w + x) * 4 + 2 < fb.buf.length := by
    have h := pixel_index_lt fb.w fb.h x y 2 hx hy (by omega)
    omega
  obtain ⟨-, -, -, hf1⟩ := getD_set3 fb.buf ((y * fb.w + x) * 4) r g b hp
  obtain ⟨-, -, -, hf2⟩ :=
    getD_set3 fb.buf ((y * fb.w + x) * 4) (c.R % 256) (c.G % 256) (c.B % 256) hp
  refine ⟨hf1 j hj0 hj1 hj2, hf2 j hj0 hj1 hj2, ?_, ?_⟩ <;>
    simp [FrameBuffer.WritePixel, FrameBuffer.Set]

/-- C3 witness: on the 2-wide, 1-high surface with bytes 0..7, writing pixel
(1, 0) leaves byte 7 (the pixel's fourth slot) and the length untouched, for
both WritePixel and Set. -/
theorem write_touches_only_own_bytes_witness :
    ((FrameBuffer.mk [0, 1, 2, 3, 4, 5, 6, 7] 1 2).WritePixel 1 0 9 8 11).buf.getD 7 0 = 7 ∧
    ((FrameBuffer.mk [0, 1, 2, 3, 4, 5, 6, 7] 1 2).Set 1 0
        (ColorVal.mk 1000 2000 3000 4000)).buf.getD 7 0 = 7 ∧
    ((FrameBuffer.mk [0, 1, 2, 3, 4, 5, 6, 7] 1 2).WritePixel 1 0 9 8 11).buf.length = 8 ∧
    ((FrameBuffer.mk [0, 1, 2, 3, 4, 5, 6, 7] 1 2).Set 1 0
        (ColorVal.mk 1000 2000 3000 4000)).buf.length = 8 :=
  write_touches_only_own_bytes (FrameBuffer.mk [0, 1, 2, 3, 4, 5, 6, 7] 1 2)
    1 0 (ColorVal.mk 1000 2000 3000 4000) 9 8 11 7 (by decide) (by decide)
    (by decide) (by decide) (by decide) (by decide)

/-- C10: Flush's reported result reflects only the write step — the seek
error is discarded — so for every device state, including one whose seek
fails, Flush reports success exactly when the buffer write succeeds. -/
theorem Flush_reports_only_write_error (fb : FrameBuffer) (d : Device) :
    (fb.Flush d).2.2 = d.failWrite := by
  cases hs : d.failSeek <;> cases hw : d.failWrite <;>
    simp [FrameBuffer.Flush, Device.seekToStart, Device.write, hs, hw]

/-- C5 counterexample: a device at offset 4 whose seek fails but whose write
succeeds — Flush reports success, yet the one write the device received is
at offset 4, not 0, so the claim as stated is false. -/
theorem Flush_seek_failure_cex :
    ((FrameBuffer.mk [1, 2, 3, 4] 1 1).Flush
        (Device.mk 4 [] false (some 7) none none)).2.2 = none ∧
    ((FrameBuffer.mk [1, 2, 3, 4] 1 1).Flush
        (Device.mk 4 [] false (some 7) none none)).2.1.writes
      = [(4, [1, 2, 3, 4])] ∧
    ((FrameBuffer.mk [1, 2, 3, 4] 1 1).Flush
        (Device.mk 4 [] false (some 7) none none)).2.1.writes
      ≠ [(0, [1, 2, 3, 4])] := by
  refine ⟨rfl, rfl, by decide⟩

/-- C5 (amended): after every successful Flush whose seek step also
succeeded, the device has received exactly the current buffer as one
contiguous write at offset 0, the surface is unchanged, and a second Flush
with no intervening pixel writes appends a second bytewise-identical write
at offset 0. -/
theorem Flush_success_writes_buffer (fb : FrameBuffer) (d : Device)
    (hs : d.failSeek = none) (hw : d.failWrite = none) :
    (fb.Flush d).2.2 = none ∧
    (fb.Flush d).1 = fb ∧
    (fb.Flush d).2.1.writes = d.writes ++ [(0, fb.buf)] ∧
    ((fb.Flush d).1.Flush (fb.Flush d).2.1).2.1.writes
      = d.writes ++ [(0, fb.buf), (0, fb.buf)] := by
  simp [FrameBuffer.Flush, Device.seekToStart, Device.write, hs, hw]

/-- C5 witness: a concrete healthy device with one prior logged write
receives the 4-byte buffer at offset 0, twice for a double Flush. -/
theorem Flush_success_writes_buffer_witness :
    ((FrameBuffer.mk [1, 2, 3, 4] 1 1).Flush
        (Device.mk 3 [(9, [9])] false none none none)).2.2 = none ∧
    ((FrameBuffer.mk [1, 2, 3, 4] 1 1).Flush
        (Device.mk 3 [(9, [9])] false none none none)).1
      = FrameBuffer.mk [1, 2, 3, 4] 1 1 ∧
    ((FrameBuffer.mk [1, 2, 3, 4] 1 1).Flush
        (Device.mk 3 [(9, [9])] false none none none)).2.1.writes
      = [(9, [9]), (0, [1, 2, 3, 4])] ∧
    (((FrameBuffer.mk [1, 2, 3, 4] 1 1).Flush
          (Device.mk 3 [(9, [9])] false none none none)).1.Flush
        ((FrameBuffer.mk [1, 2, 3, 4] 1 1).Flush
          (Device.mk 3 [(9, [9])] false none none none)).2.1).2.1.writes
      = [(9, [9]), (0, [1, 2, 3, 4]), (0, [1, 2, 3, 4])] :=
  Flush_success_writes_buffer (FrameBuffer.mk [1, 2, 3, 4] 1 1)
    (Device.mk 3 [(9, [9])] false none none none) rfl rfl

/-- C6: when the device write fails, Flush returns that underlying error,
the surface (buffer, width, height) is unchanged, the device logged no
write, and a retried Flush on the resulting device with the faults cleared
performs the full buffer write again from offset 0. -/
theorem Flush_write_failure (fb : FrameBuffer) (d : Device) (e : Nat)
    (hw : d.failWrite = some e) :
    (fb.Flush d).2.2 = some e ∧
    (fb.Flush d).1 = fb ∧
    (fb.Flush d).2.1.writes = d.writes ∧
    (fb.Flush { (fb.Flush d).2.1 with failSeek := none, failWrite := none }).2.1.writes
      = d.writes ++ [(0, fb.buf)] := by
  cases hs : d.failSeek <;>
    simp [FrameBuffer.Flush, Device.seekToStart, Device.write, hs, hw]

/-- C6 witness: a device that rejects the write with error 11 — Flush
reports 11, nothing is logged, the surface is intact, and the retry after
clearing the fault writes the buffer at offset 0. -/
theorem Flush_write_failure_witness :
    ((FrameBuffer.mk [7, 8] 1 1).Flush
        (Device.mk 5 [(1, [2])] false (some 3) (some 11) none)).2.2 = some 11 ∧
    ((FrameBuffer.mk [7, 8] 1 1).Flush
        (Device.mk 5 [(1, [2])] false (some 3) (some 11) none)).1
      = FrameBuffer.mk [7, 8] 1 1 ∧
    ((FrameBuffer.mk [7, 8] 1 1).Flush
        (Device.mk 5 [(1, [2])] false (some 3) (some 11) none)).2.1.writes
      = [(1, [2])] ∧
    ((FrameBuffer.mk [7, 8] 1 1).Flush
        { ((FrameBuffer.mk [7, 8] 1 1).Flush
            (Device.mk 5 [(1, [2])] false (some 3) (some 11) none)).2.1 with
          failSeek := none, failWrite := none }).2.1.writes
      = [(1, [2]), (0, [7, 8])] :=
  Flush_write_failure (FrameBuffer.mk [7, 8] 1 1)
    (Device.mk 5 [(1, [2])] false (some 3) (some 11) none) 11 rfl

/-- C7: when the collaborator reports status 0 with a size and resolutions,
Open returns a surface whose width and height are the reported resolutions
and whose buffer has the reported size with every byte zero — no read-back
of existing device contents. -/
theorem Open_success_zero_buffer (cErr : Int) (info : FbInfo) (h : cErr = 0) :
    ∃ fb, Open cErr info = Except.ok fb ∧
      fb.w = info.var_info.xres ∧ fb.h = info.var_info.yres ∧
      fb.buf.length = info.fix_info.smem_len ∧
      ∀ i, fb.buf.getD i 0 = 0 := by
  refine ⟨FrameBuffer.mk (List.replicate info.fix_info.smem_len 0)
    info.var_info.yres info.var_info.xres, ?_, rfl, rfl, by simp,
    fun i => getD_replicate_zero _ _⟩
  simp [Open, h]

/-- C7 witness: status 0, size 16, resolution 2×2 yields a 2×2 surface over
16 zero bytes. -/
theorem Open_success_zero_buffer_witness :
    ∃ fb, Open 0 (FbInfo.mk (FbFixInfo.mk 16) (FbVarInfo.mk 2 2) 5) = Except.ok fb ∧
      fb.w = (FbInfo.mk (FbFixInfo.mk 16) (FbVarInfo.mk 2 2) 5).var_info.xres ∧
      fb.h = (FbInfo.mk (FbFixInfo.mk 16) (FbVarInfo.mk 2 2) 5).var_info.yres ∧
      fb.buf.length = (FbInfo.mk (FbFixInfo.mk 16) (FbVarInfo.mk 2 2) 5).fix_info.smem_len ∧
      ∀ i, fb.buf.getD i 0 = 0 :=
  Open_success_zero_buffer 0 (FbInfo.mk (FbFixInfo.mk 16) (FbVarInfo.mk 2 2) 5) rfl

/-- C8: when the collaborator reports a non-zero status, Open returns
exactly the generic initialization error `InitErr` and no surface. -/
theorem Open_failure_init_err (cErr : Int) (info : FbInfo) (h : cErr ≠ 0) :
    Open cErr info = Except.error InitErr := by
  simp [Open, h]

/-- C8 witness: status 1 yields `InitErr`. -/
theorem Open_failure_init_err_witness :
    Open 1 (FbInfo.mk (FbFixInfo.mk 16) (FbVarInfo.mk 2 2) 5)
      = Except.error InitErr :=
  Open_failure_init_err 1 (FbInfo.mk (FbFixInfo.mk 16) (FbVarInfo.mk 2 2) 5)
    (by decide)

/-- `applyOp` never changes the buffer length, width or height. -/
lemma applyOp_preserves (s : FrameBuffer × Device) (op : FbOp) :
    (applyOp s op).1.buf.length = s.1.buf.length ∧
    (applyOp s op).1.w = s.1.w ∧ (applyOp s op).1.h = s.1.h := by
  cases op <;> simp [applyOp, FrameBuffer.Set, FrameBuffer.WritePixel,
    FrameBuffer.Flush, FrameBuffer.Close]

/-- Any operation sequence preserves the buffer length, width and height. -/
lemma runOps_preserves (s : FrameBuffer × Device) (ops : List FbOp) :
    (runOps s ops).1.buf.length = s.1.buf.length ∧
    (runOps s ops).1.w = s.1.w ∧ (runOps s ops).1.h = s.1.h := by
  induction ops generalizing s with
  | nil => exact ⟨rfl, rfl, rfl⟩
  | cons op tail ih =>
      obtain ⟨l1, w1, h1⟩ := applyOp_preserves s op
      obtain ⟨l2, w2, h2⟩ := ih (applyOp s op)
      exact ⟨l2.trans l1, w2.trans w1, h2.trans h1⟩

/-- C4 counterexample: a collaborator reporting status 0, size 20, and
resolution 2×2 — Open succeeds but the surface's buffer has 20 bytes, not
width*height*4 = 16, so Open does not establish the claimed invariant. -/
theorem open_length_invariant_cex :
    Open 0 (FbInfo.mk (FbFixInfo.mk 20) (FbVarInfo.mk 2 2) 0)
      = Except.ok (FrameBuffer.mk (List.replicate 20 0) 2 2) ∧
    (FrameBuffer.mk (List.replicate 20 0) 2 2).buf.length
      ≠ (FrameBuffer.mk (List.replicate 20 0) 2 2).w
        * (FrameBuffer.mk (List.replicate 20 0) 2 2).h * 4 := by
  exact ⟨by simp [Open], by decide⟩

/-- C4 (amended): Open sizes the buffer from the collaborator's reported
`smem_len` without checking it against the resolution; whenever the
reported size equals xres*yres*4, the invariant buffer.length = w*h*4
holds at Open and after every sequence of operations, since no operation
changes the buffer length, width or height. -/
theorem open_run_length_invariant (cErr : Int) (info : FbInfo)
    (fb : FrameBuffer) (h0 : Open cErr info = Except.ok fb)
    (hsz : info.fix_info.smem_len = info.var_info.xres * info.var_info.yres * 4)
    (d : Device) (ops : List FbOp) :
    fb.buf.length = fb.w * fb.h * 4 ∧
    (runOps (fb, d) ops).1.buf.length
      = (runOps (fb, d) ops).1.w * (runOps (fb, d) ops).1.h * 4 := by
  have hfb : fb = FrameBuffer.mk (List.replicate info.fix_info.smem_len 0)
      info.var_info.yres info.var_info.xres := by
    by_cases hc : cErr = 0
    · simp only [Open, hc] at h0
      simp at h0
      exact h0.symm
    · simp [Open, hc] at h0
  have base : fb.buf.length = fb.w * fb.h * 4 := by
    subst hfb
    simp [hsz]
  obtain ⟨l, wq, hq⟩ := runOps_preserves (fb, d) ops
  exact ⟨base, by rw [l, wq, hq]; exact base⟩

/-- C4 witness: a 2×2 surface over 16 bytes keeps buffer.length = w*h*4
after a Set and a Flush. -/
theorem open_run_length_invariant_witness :
    (FrameBuffer.mk (List.replicate 16 0) 2 2).buf.length
      = (FrameBuffer.mk (List.replicate 16 0) 2 2).w
        * (FrameBuffer.mk (List.replicate 16 0) 2 2).h * 4 ∧
    (runOps (FrameBuffer.mk (List.replicate 16 0) 2 2,
        Device.mk 0 [] false none none none)
        [FbOp.setOp 1 0 (ColorVal.mk 10 20 30 0), FbOp.flushOp]).1.buf.length
      = (runOps (FrameBuffer.mk (List.replicate 16 0) 2 2,
          Device.mk 0 [] false none none none)
          [FbOp.setOp 1 0 (ColorVal.mk 10 20 30 0), FbOp.flushOp]).1.w
        * (runOps (FrameBuffer.mk (List.replicate 16 0) 2 2,
            Device.mk 0 [] false none none none)
            [FbOp.setOp 1 0 (ColorVal.mk 10 20 30 0), FbOp.flushOp]).1.h * 4 :=
  open_run_length_invariant 0 (FbInfo.mk (FbFixInfo.mk 16) (FbVarInfo.mk 2 2) 0)
    (FrameBuffer.mk (List.replicate 16 0) 2 2) (by simp [Open]) (by decide)
    (Device.mk 0 [] false none none none)
    [FbOp.setOp 1 0 (ColorVal.mk 10 20 30 0), FbOp.flushOp]

end Framebuffer
